import Mathlib

/-!
Verification development for the telegram vocabulary bot
(`users.py`, `bot.py`).  The Python sources are shallowly embedded:
the flat JSON user store becomes an association list, the per-user
`context.user_data` flags become a record of booleans, network and
clock effects become explicit oracle parameters, and each handler
becomes a pure function from (oracle, session, store, message) to an
outcome (new session, new store, replies sent, external calls made).
-/

namespace TgBot

/-! ### Python string primitives

The handlers use `str.strip()`, `str.lower()`, `str.split()`,
`str.split(' ', 1)` and `str.startswith('#')`.  They are modelled on
the character list underlying a `String`.  `lower` is modelled on the
ASCII range only; every literal token the code compares against is
already lower case, so the comparisons behave as in the source.
-/

def wsCh (c : Char) : Bool := c = ' ' || c = '\t' || c = '\n' || c = '\r'

/-- Python `str.strip()`. -/
def pyStrip (s : String) : String :=
  ⟨((s.data.dropWhile wsCh).reverse.dropWhile wsCh).reverse⟩

def lowerCh (c : Char) : Char :=
  if 65 ≤ c.toNat ∧ c.toNat ≤ 90 then Char.ofNat (c.toNat + 32) else c

/-- Python `str.lower()` (ASCII range). -/
def pyLower (s : String) : String := ⟨s.data.map lowerCh⟩

def wordsAux : List Char → List Char → List String
  | [], acc => if acc = [] then [] else [⟨acc.reverse⟩]
  | c :: cs, acc =>
    if wsCh c then
      (if acc = [] then wordsAux cs [] else ⟨acc.reverse⟩ :: wordsAux cs [])
    else wordsAux cs (c :: acc)

/-- Python `str.split()`: splits on whitespace runs, no empty items. -/
def pySplit (s : String) : List String := wordsAux s.data []

def breakAtSpace : List Char → List Char × Option (List Char)
  | [] => ([], none)
  | c :: cs =>
    if c = ' ' then ([], some cs)
    else
      let r := breakAtSpace cs
      (c :: r.1, r.2)

/-- Python `text.split(' ', 1)`: the part before the first space and,
when a space exists, everything after it. -/
def splitFirstSpace (s : String) : String × Option String :=
  let r := breakAtSpace s.data
  (⟨r.1⟩, r.2.map fun cs => ⟨cs⟩)

/-- Python `word.startswith('#')`. -/
def startsWithHash (s : String) : Bool :=
  match s.data with
  | [] => false
  | c :: _ => c = '#'

/-- Python `a or b` on two optional strings (`None` and `""` are falsy). -/
def orStr : Option String → Option String → Option String
  | some s, b => if s = "" then b else some s
  | none, b => b

/-! ### `users.py`: the user store

`UserManager.users` is a dict keyed by `str(user_id)`; since `str` is
injective on integers we key the association list by the integer id
itself.  `datetime.now()` is passed in explicitly as a `Nat` clock
value.  `save_users` only writes the file (errors swallowed), so it
has no in-memory effect and is not modelled.
-/

structure Stats where
  words_saved : Nat
  hashtags_created : Nat
  hashtags_deleted : Nat
  pdfs_generated : Nat
  total_messages : Nat
deriving DecidableEq, Repr

inductive StatName where
  | words_saved
  | hashtags_created
  | hashtags_deleted
  | pdfs_generated
  | total_messages
deriving DecidableEq, Repr

def statNameStr : StatName → String
  | .words_saved => "words_saved"
  | .hashtags_created => "hashtags_created"
  | .hashtags_deleted => "hashtags_deleted"
  | .pdfs_generated => "pdfs_generated"
  | .total_messages => "total_messages"

/-- Which keys the `stats` dict of a record has (`stat_name in stats`). -/
def parseStatName (s : String) : Option StatName :=
  if s = "words_saved" then some .words_saved
  else if s = "hashtags_created" then some .hashtags_created
  else if s = "hashtags_deleted" then some .hashtags_deleted
  else if s = "pdfs_generated" then some .pdfs_generated
  else if s = "total_messages" then some .total_messages
  else none

def statsGet (st : Stats) : StatName → Nat
  | .words_saved => st.words_saved
  | .hashtags_created => st.hashtags_created
  | .hashtags_deleted => st.hashtags_deleted
  | .pdfs_generated => st.pdfs_generated
  | .total_messages => st.total_messages

def statsInc (st : Stats) : StatName → Stats
  | .words_saved => { st with words_saved := st.words_saved + 1 }
  | .hashtags_created => { st with hashtags_created := st.hashtags_created + 1 }
  | .hashtags_deleted => { st with hashtags_deleted := st.hashtags_deleted + 1 }
  | .pdfs_generated => { st with pdfs_generated := st.pdfs_generated + 1 }
  | .total_messages => { st with total_messages := st.total_messages + 1 }

structure UserData where
  user_id : Int
  username : Option String
  first_name : Option String
  last_name : Option String
  language : String
  registered_at : Nat
  last_activity : Nat
  stats : Stats
  auto_save : Bool
  notifications : Bool
deriving DecidableEq, Repr

abbrev Store := List (Int × UserData)

def storeFind : Store → Int → Option UserData
  | [], _ => none
  | (k, v) :: rest, uid => if k = uid then some v else storeFind rest uid

def storeModify : Store → Int → (UserData → UserData) → Store
  | [], _, _ => []
  | (k, v) :: rest, uid, f =>
    if k = uid then (k, f v) :: storeModify rest uid f
    else (k, v) :: storeModify rest uid f

/-- `UserManager.register_user`: returns `(result, new store)`. -/
def register_user (users : Store) (now : Nat) (uid : Int)
    (username first_name last_name : Option String) : Bool × Store :=
  if (storeFind users uid).isSome then
    (false, users)
  else
    (true, users ++ [(uid,
      { user_id := uid
        username := username
        first_name := first_name
        last_name := last_name
        language := "en"
        registered_at := now
        last_activity := now
        stats := ⟨0, 0, 0, 0, 0⟩
        auto_save := true
        notifications := true })])

/-- `UserManager.get_user`. -/
def get_user (users : Store) (uid : Int) : Option UserData :=
  storeFind users uid

/-- `UserManager.update_user_language`. -/
def update_user_language (users : Store) (now : Nat) (uid : Int)
    (language : String) : Store :=
  if (storeFind users uid).isSome then
    storeModify users uid fun d => { d with language := language, last_activity := now }
  else users

/-- `UserManager.update_user_activity`. -/
def update_user_activity (users : Store) (now : Nat) (uid : Int) : Store :=
  if (storeFind users uid).isSome then
    storeModify users uid fun d =>
      { d with last_activity := now
               stats := { d.stats with total_messages := d.stats.total_messages + 1 } }
  else users

/-- `UserManager.increment_stat`. -/
def increment_stat (users : Store) (uid : Int) (stat_name : String) : Store :=
  if (storeFind users uid).isSome then
    match parseStatName stat_name with
    | some k => storeModify users uid fun d => { d with stats := statsInc d.stats k }
    | none => users
  else users

/-- A sequence of `increment_stat` calls, each `(user_id, stat_name)`. -/
def applyIncrements (users : Store) (calls : List (Int × String)) : Store :=
  calls.foldl (fun s c => increment_stat s c.1 c.2) users

/-- A sequence of `update_user_activity` calls at the given clock values. -/
def applyTouches (users : Store) (times : List Nat) (uid : Int) : Store :=
  times.foldl (fun s t => update_user_activity s t uid) users


/-! ### `bot.py`: remote client and dispatcher

Outbound HTTP traffic and the clock are modelled by an oracle `Env`:
one response per endpoint (each handler hits each endpoint at most
once per inbound message), the result of `generate_pdf` (the
reportlab rendering is a black box returning a path or `None`), and
whether `reply_document` succeeds.  `get_text(key, lang)` lives in
`translations.py`, which only provides literal menu/reply text; it is
passed in as an opaque function `gt`, so every theorem below holds
for every possible label table.
-/

inductive NetResult (α : Type) where
  | ok (status : Nat) (payload : α)
  | connError
deriving DecidableEq, Repr

structure Hashtag where
  name : String
deriving DecidableEq, Repr

/-- An item of `GET /api/messages` (`msg.get('category')`,
`msg.get('text')`, `msg.get('translation')`). -/
structure RemoteMsg where
  text : String
  translation : Option String
  category : Option String
deriving DecidableEq, Repr

structure Env where
  messagesPost : NetResult Unit
  usersPost : NetResult Unit
  hashtagsPost : NetResult Unit
  hashtagsDelete : NetResult Unit
  hashtagsGet : NetResult (List Hashtag)
  messagesGet : NetResult (List RemoteMsg)
  pdfPath : Option String
  sendDocOk : Bool
  now : Nat

/-- The user-visible part of an API wrapper result message. -/
inductive ApiMsg where
  | success
  | alreadyExists
  | notFound
  | errorCode (code : Nat)
  | websiteNotRunning
deriving DecidableEq, Repr

/-- One constructor per distinct `reply_text` / `reply_document` site. -/
inductive Reply where
  | notRegistered
  | createMode
  | createWrongStart
  | hashtagCreated (name description : String)
  | deleteMode (names : List String)
  | noHashtags
  | deleteWrongStart
  | hashtagDeleted (name : String)
  | importMode (names : List String)
  | noCategories
  | importWrongStart
  | noWordsFound (category : String)
  | document (filename : String)
  | errorSendingPdf
  | errorGeneratingPdf
  | apiError (m : ApiMsg)
  | wordSaved (text category : String)
  | wordSaveFailed (m : ApiMsg)
  | languageOptions
  | languageSet (lang : String)
  | invalidLanguageChoice
  | alreadyRegistered
  | registrationWelcome (synced : Bool)
  | registrationFailed
  | helpText
  | profileText
  | websiteLink
  | hashtagReminder
deriving DecidableEq, Repr

/-- External calls issued while handling one message.  `generatePdf`
and `sendDocument` are local effects recorded alongside the HTTP
calls so that "no render call" claims can be stated. -/
inductive RemoteCall where
  | postMessages (text : String) (hashtags : List String)
      (user_id : Int) (username : Option String)
  | postUsers (user_id : Int)
  | postHashtags (name description : String)
  | deleteHashtags (name : String)
  | getHashtags
  | getMessages
  | generatePdf (words : List RemoteMsg) (category : String)
  | sendDocument (filename : String)
deriving DecidableEq, Repr

def RemoteCall.isPostMessages : RemoteCall → Bool
  | .postMessages .. => true
  | _ => false

def RemoteCall.isPostHashtags : RemoteCall → Bool
  | .postHashtags .. => true
  | _ => false

def RemoteCall.isGeneratePdf : RemoteCall → Bool
  | .generatePdf .. => true
  | _ => false

/-- The per-user `context.user_data` flags.  They are independent
booleans in the source; the dispatcher checks them in this order. -/
structure Ctx where
  awaiting_hashtag_create : Bool
  awaiting_hashtag_delete : Bool
  awaiting_category_import : Bool
  awaiting_language : Bool
deriving DecidableEq, Repr

/-- Result of handling one inbound message: new session flags, new
store, replies sent (in order) and external calls made (in order). -/
structure Outcome where
  ctx : Ctx
  users : Store
  replies : List Reply
  calls : List RemoteCall
deriving DecidableEq, Repr

/-! ### API wrappers (`bot.py` lines 72-244) -/

/-- `send_message_to_website`: body of the try around
`POST /api/messages`.  The `category` local (line 77) is exposed as
`smw_category` below. -/
def send_message_to_website (resp : NetResult Unit) (text : String) :
    Bool × ApiMsg :=
  match resp with
  | .ok 200 _ => (true, .success)
  | .ok c _ => (false, .errorCode c)
  | .connError => (false, .websiteNotRunning)

/-- The `category` computed inside `send_message_to_website`:
the first `#`-prefixed whitespace-separated token, defaulting to
`"#слова"` when the text carries none. -/
def smw_category (text : String) : String :=
  match (pySplit text).filter startsWithHash with
  | [] => "#слова"
  | h :: _ => h

/-- `create_hashtag`: `POST /api/hashtags`. -/
def create_hashtag (resp : NetResult Unit) : Bool × ApiMsg :=
  match resp with
  | .ok 200 _ => (true, .success)
  | .ok 409 _ => (false, .alreadyExists)
  | .ok c _ => (false, .errorCode c)
  | .connError => (false, .websiteNotRunning)

/-- `delete_hashtag`: `DELETE /api/hashtags?name=...`. -/
def delete_hashtag (resp : NetResult Unit) : Bool × ApiMsg :=
  match resp with
  | .ok 200 _ => (true, .success)
  | .ok 404 _ => (false, .notFound)
  | .ok c _ => (false, .errorCode c)
  | .connError => (false, .websiteNotRunning)

/-- `get_hashtags`: `GET /api/hashtags`. -/
def get_hashtags (resp : NetResult (List Hashtag)) :
    Except ApiMsg (List Hashtag) :=
  match resp with
  | .ok 200 hs => .ok hs
  | .ok c _ => .error (.errorCode c)
  | .connError => .error .websiteNotRunning

/-- `get_words_by_category`: fetches the full `GET /api/messages`
listing and filters client-side by `msg.get('category') == category`. -/
def get_words_by_category (resp : NetResult (List RemoteMsg))
    (category : String) : Except ApiMsg (List RemoteMsg) :=
  match resp with
  | .ok 200 msgs => .ok (msgs.filter fun m => m.category = some category)
  | .ok c _ => .error (.errorCode c)
  | .connError => .error .websiteNotRunning

/-- `sync_user_to_backend`: `POST /api/users` (called after a fresh
registration, where the user always exists). -/
def sync_user_to_backend (resp : NetResult Unit) : Bool :=
  match resp with
  | .ok 200 _ => true
  | _ => false

/-! ### Flow handlers (`bot.py` lines 246-634) -/

/-- `handle_create_hashtag`. -/
def handle_create_hashtag (env : Env) (ctx : Ctx) (users : Store)
    (uid : Int) (raw : String) : Outcome :=
  let text := pyStrip raw
  if ctx.awaiting_hashtag_create then
    let ctx2 := { ctx with awaiting_hashtag_create := false }
    let parts := splitFirstSpace text
    let hashtag_name := parts.1
    let description := parts.2.getD ""
    if !startsWithHash hashtag_name then
      { ctx := ctx2, users := users, replies := [.createWrongStart], calls := [] }
    else
      let r := create_hashtag env.hashtagsPost
      let calls := [RemoteCall.postHashtags hashtag_name description]
      if r.1 then
        { ctx := ctx2
          users := increment_stat users uid "hashtags_created"
          replies := [.hashtagCreated hashtag_name description]
          calls := calls }
      else
        { ctx := ctx2, users := users, replies := [.apiError r.2], calls := calls }
  else
    { ctx := { ctx with awaiting_hashtag_create := true }
      users := users, replies := [.createMode], calls := [] }

/-- `handle_delete_hashtag`. -/
def handle_delete_hashtag (env : Env) (ctx : Ctx) (users : Store)
    (uid : Int) (raw : String) : Outcome :=
  let text := pyStrip raw
  if ctx.awaiting_hashtag_delete then
    let ctx2 := { ctx with awaiting_hashtag_delete := false }
    if !startsWithHash text then
      { ctx := ctx2, users := users, replies := [.deleteWrongStart], calls := [] }
    else
      let r := delete_hashtag env.hashtagsDelete
      let calls := [RemoteCall.deleteHashtags text]
      if r.1 then
        { ctx := ctx2
          users := increment_stat users uid "hashtags_deleted"
          replies := [.hashtagDeleted text]
          calls := calls }
      else
        { ctx := ctx2, users := users, replies := [.apiError r.2], calls := calls }
  else
    let ctx2 := { ctx with awaiting_hashtag_delete := true }
    match get_hashtags env.hashtagsGet with
    | .ok hs =>
      if hs.isEmpty then
        { ctx := ctx2, users := users, replies := [.noHashtags], calls := [.getHashtags] }
      else
        { ctx := ctx2, users := users
          replies := [.deleteMode (hs.map Hashtag.name)], calls := [.getHashtags] }
    | .error m =>
      { ctx := ctx2, users := users, replies := [.apiError m], calls := [.getHashtags] }

/-- `handle_import_list`.  When the category has items,
`generate_pdf` runs first; if it yields a path, `pdfs_generated` is
incremented and only then is the document sent, a send failure being
reported as a plain error reply. -/
def handle_import_list (env : Env) (ctx : Ctx) (users : Store)
    (uid : Int) (raw : String) : Outcome :=
  let text := pyStrip raw
  if ctx.awaiting_category_import then
    let ctx2 := { ctx with awaiting_category_import := false }
    if !startsWithHash text then
      { ctx := ctx2, users := users, replies := [.importWrongStart], calls := [] }
    else
      match get_words_by_category env.messagesGet text with
      | .ok words =>
        if words.isEmpty then
          { ctx := ctx2, users := users
            replies := [.noWordsFound text], calls := [.getMessages] }
        else
          match env.pdfPath with
          | some _ =>
            let users2 := increment_stat users uid "pdfs_generated"
            let fname := text ++ "_word_list.pdf"
            if env.sendDocOk then
              { ctx := ctx2, users := users2, replies := [.document fname]
                calls := [.getMessages, .generatePdf words text, .sendDocument fname] }
            else
              { ctx := ctx2, users := users2, replies := [.errorSendingPdf]
                calls := [.getMessages, .generatePdf words text, .sendDocument fname] }
          | none =>
            { ctx := ctx2, users := users, replies := [.errorGeneratingPdf]
              calls := [.getMessages, .generatePdf words text] }
      | .error m =>
        { ctx := ctx2, users := users, replies := [.apiError m], calls := [.getMessages] }
  else
    let ctx2 := { ctx with awaiting_category_import := true }
    match get_hashtags env.hashtagsGet with
    | .ok hs =>
      if hs.isEmpty then
        { ctx := ctx2, users := users, replies := [.noCategories], calls := [.getHashtags] }
      else
        { ctx := ctx2, users := users
          replies := [.importMode (hs.map Hashtag.name)], calls := [.getHashtags] }
    | .error m =>
      { ctx := ctx2, users := users, replies := [.apiError m], calls := [.getHashtags] }

def enChoices (s : String) : Bool :=
  s = "1" || s = "english" || s = "en" || s = "английский"

def ruChoices (s : String) : Bool :=
  s = "2" || s = "русский" || s = "ru" || s = "russian"

def uzChoices (s : String) : Bool :=
  s = "3" || s = "узбекский" || s = "uz" || s = "uzbek" || s = "o\x27zbek"

/-- `handle_language_selection`.  Note: the handler itself calls
`update_user_activity`, and it clears `awaiting_language` before it
inspects the choice, so an unrecognized choice also leaves the mode. -/
def handle_language_selection (env : Env) (ctx : Ctx) (users : Store)
    (uid : Int) (raw : String) : Outcome :=
  let text := pyStrip raw
  if (get_user users uid).isNone then
    { ctx := ctx, users := users, replies := [.notRegistered], calls := [] }
  else
    let users1 := update_user_activity users env.now uid
    if ctx.awaiting_language then
      let ctx2 := { ctx with awaiting_language := false }
      let lang_choice := pyStrip (pyLower text)
      if enChoices lang_choice then
        { ctx := ctx2, users := update_user_language users1 env.now uid "en"
          replies := [.languageSet "en"], calls := [] }
      else if ruChoices lang_choice then
        { ctx := ctx2, users := update_user_language users1 env.now uid "ru"
          replies := [.languageSet "ru"], calls := [] }
      else if uzChoices lang_choice then
        { ctx := ctx2, users := update_user_language users1 env.now uid "uz"
          replies := [.languageSet "uz"], calls := [] }
      else
        { ctx := ctx2, users := users1, replies := [.invalidLanguageChoice], calls := [] }
    else
      { ctx := { ctx with awaiting_language := true }
        users := users1, replies := [.languageOptions], calls := [] }

/-- Inbound sender identity (`update.effective_user`). -/
structure UserInfo where
  id : Int
  username : Option String
  first_name : Option String
  last_name : Option String
deriving DecidableEq, Repr

/-- `get_text(key, lang)` from `translations.py`, passed opaquely. -/
abbrev GetText := String → String → String

/-- `register_command`. -/
def register_command (env : Env) (ctx : Ctx) (users : Store)
    (u : UserInfo) : Outcome :=
  if (get_user users u.id).isSome then
    { ctx := ctx, users := users, replies := [.alreadyRegistered], calls := [] }
  else
    let r := register_user users env.now u.id u.username u.first_name u.last_name
    if r.1 then
      let users2 := update_user_language r.2 env.now u.id "en"
      { ctx := ctx, users := users2
        replies := [.registrationWelcome (sync_user_to_backend env.usersPost)]
        calls := [.postUsers u.id] }
    else
      { ctx := ctx, users := r.2, replies := [.registrationFailed], calls := [] }

/-- `help_command` (reached from the menu, so never as a slash command here). -/
def help_command (env : Env) (ctx : Ctx) (users : Store) (uid : Int) : Outcome :=
  if (get_user users uid).isNone then
    { ctx := ctx, users := users, replies := [.notRegistered], calls := [] }
  else
    { ctx := ctx, users := update_user_activity users env.now uid
      replies := [.helpText], calls := [] }

/-- `profile_command` (does not touch activity). -/
def profile_command (ctx : Ctx) (users : Store) (uid : Int) : Outcome :=
  if (get_user users uid).isNone then
    { ctx := ctx, users := users, replies := [.notRegistered], calls := [] }
  else
    { ctx := ctx, users := users, replies := [.profileText], calls := [] }

/-- `handle_open_website`. -/
def handle_open_website (ctx : Ctx) (users : Store) : Outcome :=
  { ctx := ctx, users := users, replies := [.websiteLink], calls := [] }

/-- `handle_message`: the dispatcher for every non-command text
message (`bot.py` lines 718-815). -/
def handle_message (gt : GetText) (env : Env) (ctx : Ctx) (users : Store)
    (u : UserInfo) (raw : String) : Outcome :=
  let text := pyStrip raw
  let lower_text := pyLower text
  if (get_user users u.id).isNone then
    if lower_text = pyLower (gt "register" "en") then
      register_command env ctx users u
    else
      { ctx := ctx, users := users, replies := [.notRegistered], calls := [] }
  else
    let lang := ((get_user users u.id).map UserData.language).getD "en"
    let users1 := update_user_activity users env.now u.id
    if ctx.awaiting_hashtag_create then
      handle_create_hashtag env ctx users1 u.id raw
    else if ctx.awaiting_hashtag_delete then
      handle_delete_hashtag env ctx users1 u.id raw
    else if ctx.awaiting_category_import then
      handle_import_list env ctx users1 u.id raw
    else if ctx.awaiting_language then
      handle_language_selection env ctx users1 u.id raw
    else
      let hashtags := (pySplit text).filter startsWithHash
      if !hashtags.isEmpty then
        let r := send_message_to_website env.messagesPost text
        let calls := [RemoteCall.postMessages text hashtags u.id
          (orStr u.username u.first_name)]
        if r.1 then
          { ctx := ctx, users := increment_stat users1 u.id "words_saved"
            replies := [.wordSaved text (hashtags.headD "")], calls := calls }
        else
          { ctx := ctx, users := users1
            replies := [.wordSaveFailed r.2], calls := calls }
      else if lower_text = pyLower (gt "help" lang) then
        help_command env ctx users1 u.id
      else if lower_text = pyLower (gt "create_hashtag" lang) then
        handle_create_hashtag env ctx users1 u.id raw
      else if lower_text = pyLower (gt "delete_hashtag" lang) then
        handle_delete_hashtag env ctx users1 u.id raw
      else if lower_text = pyLower (gt "import_list" lang) then
        handle_import_list env ctx users1 u.id raw
      else if lower_text = pyLower (gt "language_button" lang) then
        handle_language_selection env ctx users1 u.id raw
      else if lower_text = pyLower (gt "open_website" lang) then
        handle_open_website ctx users1
      else if lower_text = pyLower (gt "profile" lang) then
        profile_command ctx users1 u.id
      else if lower_text = pyLower (gt "register" lang) then
        register_command env ctx users1 u
      else
        { ctx := ctx, users := users1, replies := [.hashtagReminder], calls := [] }

/-! ### Concrete fixtures for witnesses and counterexamples -/

def sampleUser : UserData :=
  { user_id := 1, username := some "al", first_name := some "Al", last_name := none
    language := "en", registered_at := 10, last_activity := 10
    stats := ⟨0, 0, 0, 0, 0⟩, auto_save := true, notifications := true }

def sampleStore : Store := [(1, sampleUser)]

def sampleEnv : Env :=
  { messagesPost := .ok 200 (), usersPost := .ok 200 ()
    hashtagsPost := .ok 200 (), hashtagsDelete := .ok 200 ()
    hashtagsGet := .ok 200 [⟨"#words"⟩]
    messagesGet := .ok 200 [⟨"hello #words", some "privet", some "#words"⟩]
    pdfPath := some "x.pdf", sendDocOk := true, now := 20 }

def sampleGt : GetText := fun k _ => k

def sampleInfo : UserInfo := ⟨1, some "al", some "Al", none⟩

def idleCtx : Ctx := ⟨false, false, false, false⟩


/-! ### Store lemmas -/

theorem storeFind_modify_self (s : Store) (uid : Int) (f : UserData → UserData) :
    storeFind (storeModify s uid f) uid = (storeFind s uid).map f := by
  induction s with
  | nil => rfl
  | cons p rest ih =>
    obtain ⟨k, v⟩ := p
    by_cases h : k = uid <;> simp [storeFind, storeModify, h, ih]

theorem storeFind_modify_other (s : Store) (uid uid2 : Int)
    (f : UserData → UserData) (h : uid ≠ uid2) :
    storeFind (storeModify s uid f) uid2 = storeFind s uid2 := by
  induction s with
  | nil => rfl
  | cons p rest ih =>
    obtain ⟨k, v⟩ := p
    by_cases hk : k = uid
    · subst hk
      simp [storeFind, storeModify, h, ih]
    · by_cases hk2 : k = uid2 <;> simp [storeFind, storeModify, hk, hk2, Ne.symm h, ih]

theorem storeFind_append_new (s : Store) (uid : Int) (v : UserData)
    (h : storeFind s uid = none) :
    storeFind (s ++ [(uid, v)]) uid = some v := by
  induction s with
  | nil => simp [storeFind]
  | cons p rest ih =>
    obtain ⟨k, w⟩ := p
    by_cases hk : k = uid
    · simp [storeFind, hk] at h
    · simp [storeFind, hk] at h ⊢
      exact ih h

theorem get_user_update_activity (users : Store) (now : Nat) (uid : Int)
    (v : UserData) (h : storeFind users uid = some v) :
    get_user (update_user_activity users now uid) uid =
      some { v with last_activity := now
                    stats := { v.stats with total_messages := v.stats.total_messages + 1 } } := by
  simp [get_user, update_user_activity, h, storeFind_modify_self]

theorem get_user_increment_self (users : Store) (uid : Int) (name : String)
    (k : StatName) (v : UserData)
    (h : storeFind users uid = some v) (hk : parseStatName name = some k) :
    get_user (increment_stat users uid name) uid =
      some { v with stats := statsInc v.stats k } := by
  simp [get_user, increment_stat, h, hk, storeFind_modify_self]

theorem get_user_update_language (users : Store) (now : Nat) (uid : Int)
    (lang : String) (v : UserData) (h : storeFind users uid = some v) :
    get_user (update_user_language users now uid lang) uid =
      some { v with language := lang, last_activity := now } := by
  simp [get_user, update_user_language, h, storeFind_modify_self]

theorem statsGet_statsInc_self (st : Stats) (k : StatName) :
    statsGet (statsInc st k) k = statsGet st k + 1 := by
  cases k <;> rfl

theorem statsGet_statsInc_other (st : Stats) (k k2 : StatName) (h : k2 ≠ k) :
    statsGet (statsInc st k2) k = statsGet st k := by
  cases k <;> cases k2 <;> first | rfl | exact absurd rfl h

theorem parseStatName_eq_some (s : String) (k : StatName) :
    parseStatName s = some k ↔ s = statNameStr k := by
  constructor
  · intro h
    unfold parseStatName at h
    split_ifs at h <;>
      (injection h with h2; subst h2; simp [statNameStr]; assumption)
  · rintro rfl
    cases k <;> rfl
theorem increment_stat_absent (users : Store) (uid : Int) (name : String)
    (h : storeFind users uid = none) : increment_stat users uid name = users := by
  simp [increment_stat, h]

theorem increment_stat_invalid (users : Store) (uid : Int) (name : String)
    (h : parseStatName name = none) : increment_stat users uid name = users := by
  unfold increment_stat
  split <;> simp [h]

theorem get_user_increment_other (users : Store) (uid2 : Int) (name : String)
    (uid : Int) (h : uid2 ≠ uid) :
    get_user (increment_stat users uid2 name) uid = get_user users uid := by
  unfold increment_stat get_user
  split
  · cases hp : parseStatName name with
    | some k => exact storeFind_modify_other users uid2 uid _ h
    | none => rfl
  · rfl

theorem handle_language_calls (env : Env) (ctx : Ctx) (users : Store)
    (uid : Int) (raw : String) :
    (handle_language_selection env ctx users uid raw).calls = [] := by
  unfold handle_language_selection
  split
  · rfl
  · split
    · cases h1 : enChoices (pyStrip (pyLower (pyStrip raw))) <;>
        cases h2 : ruChoices (pyStrip (pyLower (pyStrip raw))) <;>
          cases h3 : uzChoices (pyStrip (pyLower (pyStrip raw))) <;>
            simp [h1, h2, h3]
    · rfl

theorem handle_create_idle (env : Env) (ctx : Ctx) (users : Store)
    (uid : Int) (raw : String) (h : ctx.awaiting_hashtag_create = false) :
    handle_create_hashtag env ctx users uid raw =
      { ctx := { ctx with awaiting_hashtag_create := true }
        users := users, replies := [.createMode], calls := [] } := by
  simp [handle_create_hashtag, h]

theorem handle_delete_calls_idle (env : Env) (ctx : Ctx) (users : Store)
    (uid : Int) (raw : String) (h : ctx.awaiting_hashtag_delete = false) :
    (handle_delete_hashtag env ctx users uid raw).calls = [.getHashtags] := by
  unfold handle_delete_hashtag
  split
  · simp_all
  · split <;> (try split) <;> simp

theorem handle_import_calls_idle (env : Env) (ctx : Ctx) (users : Store)
    (uid : Int) (raw : String) (h : ctx.awaiting_category_import = false) :
    (handle_import_list env ctx users uid raw).calls = [.getHashtags] := by
  unfold handle_import_list
  split
  · simp_all
  · split <;> (try split) <;> simp

theorem handle_create_no_postMessages (env : Env) (ctx : Ctx) (users : Store)
    (uid : Int) (raw : String) :
    ∀ c ∈ (handle_create_hashtag env ctx users uid raw).calls,
      c.isPostMessages = false := by
  unfold handle_create_hashtag
  split
  · cases hs : startsWithHash (splitFirstSpace (pyStrip raw)).1 <;>
      cases hr : (create_hashtag env.hashtagsPost).1 <;>
        simp [hs, hr, RemoteCall.isPostMessages]
  · simp

theorem handle_delete_no_postMessages (env : Env) (ctx : Ctx) (users : Store)
    (uid : Int) (raw : String) :
    ∀ c ∈ (handle_delete_hashtag env ctx users uid raw).calls,
      c.isPostMessages = false := by
  unfold handle_delete_hashtag
  split
  · cases hs : startsWithHash (pyStrip raw) <;>
      cases hr : (delete_hashtag env.hashtagsDelete).1 <;>
        simp [hs, hr, RemoteCall.isPostMessages]
  · cases hg : get_hashtags env.hashtagsGet with
    | ok hs => cases he : hs.isEmpty <;> simp [hg, he, RemoteCall.isPostMessages]
    | error m => simp [hg, RemoteCall.isPostMessages]

theorem handle_import_no_postMessages (env : Env) (ctx : Ctx) (users : Store)
    (uid : Int) (raw : String) :
    ∀ c ∈ (handle_import_list env ctx users uid raw).calls,
      c.isPostMessages = false := by
  unfold handle_import_list
  split
  · cases hs : startsWithHash (pyStrip raw)
    · simp [hs]
    · cases hw : get_words_by_category env.messagesGet (pyStrip raw) with
      | ok words =>
        cases he : words.isEmpty
        · cases hp : env.pdfPath with
          | some p =>
            cases hd : env.sendDocOk <;>
              simp [hs, hw, he, hp, hd, RemoteCall.isPostMessages]
          | none => simp [hs, hw, he, hp, RemoteCall.isPostMessages]
        · simp [hs, hw, he, RemoteCall.isPostMessages]
      | error m => simp [hs, hw, RemoteCall.isPostMessages]
  · cases hg : get_hashtags env.hashtagsGet with
    | ok hs => cases he : hs.isEmpty <;> simp [hg, he, RemoteCall.isPostMessages]
    | error m => simp [hg, RemoteCall.isPostMessages]

/-! ### Claim theorems -/

/-- Claim C2: the first `register_user` call for an absent `user_id`
returns true and appends exactly one record whose five counters are
all zero; a second call for the same id returns false and leaves the
whole store unchanged. -/
theorem C2_register_twice (users : Store) (now now2 : Nat) (uid : Int)
    (un fn ln : Option String) (h : get_user users uid = none) :
    register_user users now uid un fn ln =
      (true, users ++ [(uid,
        { user_id := uid, username := un, first_name := fn, last_name := ln
          language := "en", registered_at := now, last_activity := now
          stats := ⟨0, 0, 0, 0, 0⟩, auto_save := true, notifications := true })]) ∧
    register_user (register_user users now uid un fn ln).2 now2 uid un fn ln =
      (false, (register_user users now uid un fn ln).2) := by
  have h1 : register_user users now uid un fn ln =
      (true, users ++ [(uid,
        { user_id := uid, username := un, first_name := fn, last_name := ln
          language := "en", registered_at := now, last_activity := now
          stats := ⟨0, 0, 0, 0, 0⟩, auto_save := true, notifications := true })]) := by
    unfold register_user
    simp [get_user] at h
    simp [h]
  refine ⟨h1, ?_⟩
  rw [h1]
  unfold register_user
  rw [storeFind_append_new users uid _ (by simpa [get_user] using h)]
  simp

theorem C2_register_twice_witness :
    get_user [] 1 = none ∧
    register_user [] 5 1 (some "al") (some "Al") none =
      (true, [] ++ [((1 : Int),
        { user_id := 1, username := some "al", first_name := some "Al", last_name := none
          language := "en", registered_at := 5, last_activity := 5
          stats := ⟨0, 0, 0, 0, 0⟩, auto_save := true, notifications := true })]) ∧
    register_user (register_user [] 5 1 (some "al") (some "Al") none).2 6 1
        (some "al") (some "Al") none =
      (false, (register_user [] 5 1 (some "al") (some "Al") none).2) := by
  refine ⟨rfl, ?_, ?_⟩
  · exact (C2_register_twice [] 5 6 1 (some "al") (some "Al") none rfl).1
  · exact (C2_register_twice [] 5 6 1 (some "al") (some "Al") none rfl).2

/-- Claim C5: `increment_stat` with an absent user or an unknown stat
name changes nothing, and over any call sequence a registered user's
counter ends at its initial value plus the number of calls that name
that user and that counter. -/
theorem C5_increment_stat_sequence :
    (∀ (users : Store) (uid : Int) (name : String),
      get_user users uid = none → increment_stat users uid name = users) ∧
    (∀ (users : Store) (uid : Int) (name : String),
      parseStatName name = none → increment_stat users uid name = users) ∧
    (∀ (uid : Int) (name : String) (k : StatName), parseStatName name = some k →
      ∀ (calls : List (Int × String)) (users : Store) (u : UserData),
        get_user users uid = some u →
        ∃ us, get_user (applyIncrements users calls) uid = some us ∧
          statsGet us.stats k = statsGet u.stats k +
            calls.countP (fun c => c.1 = uid ∧ c.2 = name)) := by
  refine ⟨?_, ?_, ?_⟩
  · intro users uid name h
    exact increment_stat_absent users uid name (by simpa [get_user] using h)
  · intro users uid name h
    exact increment_stat_invalid users uid name h
  · intro uid name k hk calls
    induction calls with
    | nil =>
      intro users u hu
      exact ⟨u, hu, by simp [applyIncrements]⟩
    | cons c rest ih =>
      obtain ⟨uid2, name2⟩ := c
      intro users u hu
      have hstep : applyIncrements users ((uid2, name2) :: rest) =
          applyIncrements (increment_stat users uid2 name2) rest := rfl
      rw [hstep]
      by_cases huid : uid2 = uid
      · subst huid
        cases hp : parseStatName name2 with
        | none =>
          have hne : name2 ≠ name := by
            intro he; rw [he, hk] at hp; cases hp
          obtain ⟨us, h1, h2⟩ := ih (increment_stat users uid2 name2) u
            (by rw [increment_stat_invalid users uid2 name2 hp]; exact hu)
          refine ⟨us, h1, ?_⟩
          rw [h2]
          simp [List.countP_cons, hne]
        | some k2 =>
          have hfind : get_user (increment_stat users uid2 name2) uid2 =
              some { u with stats := statsInc u.stats k2 } :=
            get_user_increment_self users uid2 name2 k2 u hu hp
          by_cases hname : name2 = name
          · subst hname
            have hkk : k2 = k := by
              rw [hk] at hp
              injection hp with h
              exact h.symm
            subst hkk
            obtain ⟨us, h1, h2⟩ := ih _ _ hfind
            refine ⟨us, h1, ?_⟩
            rw [h2]
            simp [statsGet_statsInc_self, List.countP_cons]
            omega
          · have hkk : k2 ≠ k := by
              intro he
              subst he
              rw [parseStatName_eq_some] at hp hk
              exact hname (hp.trans hk.symm)
            obtain ⟨us, h1, h2⟩ := ih _ _ hfind
            refine ⟨us, h1, ?_⟩
            rw [h2]
            simp [statsGet_statsInc_other _ _ _ hkk, List.countP_cons, hname]
      · obtain ⟨us, h1, h2⟩ := ih (increment_stat users uid2 name2) u
          (by rw [get_user_increment_other users uid2 name2 uid huid]; exact hu)
        refine ⟨us, h1, ?_⟩
        rw [h2]
        simp [List.countP_cons, huid]

theorem C5_increment_stat_sequence_witness :
    increment_stat [] 1 "words_saved" = [] ∧
    increment_stat sampleStore 1 "no_such_stat" = sampleStore ∧
    parseStatName "words_saved" = some .words_saved ∧
    get_user sampleStore 1 = some sampleUser ∧
    ∃ us, get_user (applyIncrements sampleStore
        [(1, "words_saved"), (2, "words_saved"), (1, "total_messages"), (1, "words_saved")]) 1 =
        some us ∧
      statsGet us.stats .words_saved = statsGet sampleUser.stats .words_saved +
        List.countP (fun c => c.1 = 1 ∧ c.2 = "words_saved")
          [((1 : Int), "words_saved"), (2, "words_saved"), (1, "total_messages"), (1, "words_saved")] := by
  refine ⟨?_, ?_, rfl, rfl, ?_⟩
  · exact C5_increment_stat_sequence.1 [] 1 "words_saved" rfl
  · exact C5_increment_stat_sequence.2.1 sampleStore 1 "no_such_stat" rfl
  · exact C5_increment_stat_sequence.2.2 1 "words_saved" .words_saved rfl
      [(1, "words_saved"), (2, "words_saved"), (1, "total_messages"), (1, "words_saved")]
      sampleStore sampleUser rfl

theorem applyTouches_aux (uid : Int) :
    ∀ (p : List Nat) (users : Store) (u : UserData),
      storeFind users uid = some u → (∀ t ∈ p, u.registered_at ≤ t) →
      ∃ us, storeFind (applyTouches users p uid) uid = some us ∧
        us.stats.total_messages = u.stats.total_messages + p.length ∧
        us.registered_at = u.registered_at ∧
        (p ≠ [] → u.registered_at ≤ us.last_activity) ∧
        (p = [] → us = u) := by
  intro p
  induction p with
  | nil =>
    intro users u hu _
    exact ⟨u, hu, by simp [applyTouches], rfl, by simp, fun _ => rfl⟩
  | cons t rest ih =>
    intro users u hu hts
    have hstep : applyTouches users (t :: rest) uid =
        applyTouches (update_user_activity users t uid) rest uid := rfl
    have hfind : storeFind (update_user_activity users t uid) uid =
        some { u with last_activity := t
                      stats := { u.stats with total_messages := u.stats.total_messages + 1 } } :=
      get_user_update_activity users t uid u hu
    obtain ⟨us, h1, h2, h3, h4, h5⟩ := ih (update_user_activity users t uid)
      { u with last_activity := t
               stats := { u.stats with total_messages := u.stats.total_messages + 1 } }
      hfind (fun t2 ht2 => hts t2 (List.mem_cons_of_mem t ht2))
    have h2a : us.stats.total_messages = u.stats.total_messages + 1 + rest.length := h2
    refine ⟨us, by rw [hstep]; exact h1, by simp only [List.length_cons]; omega, h3, ?_, by simp⟩
    intro _
    cases hrest : rest with
    | nil =>
      rw [h5 hrest]
      exact hts t (by simp)
    | cons t2 rest2 =>
      exact h4 (by simp [hrest])

/-- Claim C6: `update_user_activity` is a no-op on an absent user;
for a registered user a call sets last_activity to the clock value
and bumps total_messages by one, and after each of the first i of N
calls total_messages has grown by i and, for a monotone clock,
last_activity ≥ registered_at keeps holding. -/
theorem C6_touch_activity (users : Store) (uid : Int) :
    (∀ now, get_user users uid = none → update_user_activity users now uid = users) ∧
    (∀ now u, get_user users uid = some u →
      get_user (update_user_activity users now uid) uid =
        some { u with last_activity := now
                      stats := { u.stats with total_messages := u.stats.total_messages + 1 } }) ∧
    (∀ u, get_user users uid = some u →
      ∀ (times : List Nat), (∀ t ∈ times, u.registered_at ≤ t) →
        ∀ i, i ≤ times.length →
          ∃ us, get_user (applyTouches users (times.take i) uid) uid = some us ∧
            us.stats.total_messages = u.stats.total_messages + i ∧
            us.registered_at = u.registered_at ∧
            (0 < i → u.registered_at ≤ us.last_activity)) := by
  refine ⟨?_, ?_, ?_⟩
  · intro now h
    simp [get_user] at h
    simp [update_user_activity, h]
  · intro now u hu
    exact get_user_update_activity users now uid u hu
  · intro u hu times hmono i hi
    obtain ⟨us, h1, h2, h3, h4, _⟩ := applyTouches_aux uid (times.take i) users u hu
      (fun t ht => hmono t (List.take_subset i times ht))
    refine ⟨us, h1, ?_, h3, ?_⟩
    · rw [h2, List.length_take, Nat.min_eq_left hi]
    · intro hpos
      apply h4
      intro he
      rw [he] at h2
      simp at h2
      have : (times.take i).length = 0 := by rw [he]; rfl
      rw [List.length_take, Nat.min_eq_left hi] at this
      omega

theorem C6_touch_activity_witness :
    update_user_activity [] 7 1 = [] ∧
    get_user sampleStore 1 = some sampleUser ∧
    get_user (update_user_activity sampleStore 12 1) 1 =
      some { sampleUser with
              last_activity := 12,
              stats := { sampleUser.stats with
                          total_messages := sampleUser.stats.total_messages + 1 } } ∧
    (∀ t ∈ [11, 12, 13], sampleUser.registered_at ≤ t) ∧
    ∃ us, get_user (applyTouches sampleStore ([11, 12, 13].take 2) 1) 1 = some us ∧
      us.stats.total_messages = sampleUser.stats.total_messages + 2 ∧
      us.registered_at = sampleUser.registered_at ∧
      (0 < 2 → sampleUser.registered_at ≤ us.last_activity) := by
  refine ⟨?_, rfl, ?_, by decide, ?_⟩
  · exact (C6_touch_activity [] 1).1 7 rfl
  · exact (C6_touch_activity sampleStore 1).2.1 12 sampleUser rfl
  · exact (C6_touch_activity sampleStore 1).2.2 sampleUser rfl [11, 12, 13]
      (by decide) 2 (by decide)

/-- Claim C7: for an unregistered user, any text other than the
register button label yields only the must-register reply: no remote
call, no user-store change, no session-state change. -/
theorem C7_unregistered_guard (gt : GetText) (env : Env) (ctx : Ctx)
    (users : Store) (u : UserInfo) (raw : String)
    (h1 : get_user users u.id = none)
    (h2 : pyLower (pyStrip raw) ≠ pyLower (gt "register" "en")) :
    handle_message gt env ctx users u raw =
      { ctx := ctx, users := users, replies := [.notRegistered], calls := [] } := by
  unfold handle_message
  simp [h1, h2]

theorem C7_unregistered_guard_witness :
    get_user sampleStore 2 = none ∧
    pyLower (pyStrip "#words hello") ≠ pyLower (sampleGt "register" "en") ∧
    handle_message sampleGt sampleEnv idleCtx sampleStore ⟨2, none, none, none⟩ "#words hello" =
      { ctx := idleCtx, users := sampleStore, replies := [.notRegistered], calls := [] } := by
  refine ⟨rfl, by decide, ?_⟩
  exact C7_unregistered_guard sampleGt sampleEnv idleCtx sampleStore
    ⟨2, none, none, none⟩ "#words hello" rfl (by decide)

/-- Claim C4: while a flow is pending, the next message is consumed
by that flow's handler (checked in source order create, delete,
import, language) whatever the text — and in particular it is never
posted as a tagged note (`POST /api/messages`), for any label table. -/
theorem C4_flow_consumes (gt : GetText) (env : Env) (ctx : Ctx)
    (users : Store) (u : UserInfo) (raw : String) (v : UserData)
    (hreg : get_user users u.id = some v)
    (hpending : ctx.awaiting_hashtag_create = true ∨ ctx.awaiting_hashtag_delete = true ∨
      ctx.awaiting_category_import = true ∨ ctx.awaiting_language = true) :
    (∀ c ∈ (handle_message gt env ctx users u raw).calls, c.isPostMessages = false) ∧
    (ctx.awaiting_hashtag_create = true →
      handle_message gt env ctx users u raw =
        handle_create_hashtag env ctx (update_user_activity users env.now u.id) u.id raw) ∧
    (ctx.awaiting_hashtag_create = false → ctx.awaiting_hashtag_delete = true →
      handle_message gt env ctx users u raw =
        handle_delete_hashtag env ctx (update_user_activity users env.now u.id) u.id raw) ∧
    (ctx.awaiting_hashtag_create = false → ctx.awaiting_hashtag_delete = false →
      ctx.awaiting_category_import = true →
      handle_message gt env ctx users u raw =
        handle_import_list env ctx (update_user_activity users env.now u.id) u.id raw) ∧
    (ctx.awaiting_hashtag_create = false → ctx.awaiting_hashtag_delete = false →
      ctx.awaiting_category_import = false → ctx.awaiting_language = true →
      handle_message gt env ctx users u raw =
        handle_language_selection env ctx (update_user_activity users env.now u.id) u.id raw) := by
  have hroute1 : ctx.awaiting_hashtag_create = true →
      handle_message gt env ctx users u raw =
        handle_create_hashtag env ctx (update_user_activity users env.now u.id) u.id raw := by
    intro h
    unfold handle_message
    simp [hreg, h]
  have hroute2 : ctx.awaiting_hashtag_create = false → ctx.awaiting_hashtag_delete = true →
      handle_message gt env ctx users u raw =
        handle_delete_hashtag env ctx (update_user_activity users env.now u.id) u.id raw := by
    intro h1 h2
    unfold handle_message
    simp [hreg, h1, h2]
  have hroute3 : ctx.awaiting_hashtag_create = false → ctx.awaiting_hashtag_delete = false →
      ctx.awaiting_category_import = true →
      handle_message gt env ctx users u raw =
        handle_import_list env ctx (update_user_activity users env.now u.id) u.id raw := by
    intro h1 h2 h3
    unfold handle_message
    simp [hreg, h1, h2, h3]
  have hroute4 : ctx.awaiting_hashtag_create = false → ctx.awaiting_hashtag_delete = false →
      ctx.awaiting_category_import = false → ctx.awaiting_language = true →
      handle_message gt env ctx users u raw =
        handle_language_selection env ctx (update_user_activity users env.now u.id) u.id raw := by
    intro h1 h2 h3 h4
    unfold handle_message
    simp [hreg, h1, h2, h3, h4]
  refine ⟨?_, hroute1, hroute2, hroute3, hroute4⟩
  cases hc : ctx.awaiting_hashtag_create
  · cases hd : ctx.awaiting_hashtag_delete
    · cases hi : ctx.awaiting_category_import
      · cases hl : ctx.awaiting_language
        · rw [hc, hd, hi, hl] at hpending
          simp at hpending
        · rw [hroute4 hc hd hi hl]
          rw [handle_language_calls]
          simp
      · rw [hroute3 hc hd hi]
        exact handle_import_no_postMessages env ctx _ u.id raw
    · rw [hroute2 hc hd]
      exact handle_delete_no_postMessages env ctx _ u.id raw
  · rw [hroute1 hc]
    exact handle_create_no_postMessages env ctx _ u.id raw

theorem C4_flow_consumes_witness :
    get_user sampleStore 1 = some sampleUser ∧
    ((∀ c ∈ (handle_message sampleGt sampleEnv ⟨true, false, false, false⟩
        sampleStore sampleInfo "#words hi").calls, c.isPostMessages = false) ∧
    ((true : Bool) = true →
      handle_message sampleGt sampleEnv ⟨true, false, false, false⟩ sampleStore sampleInfo "#words hi" =
        handle_create_hashtag sampleEnv ⟨true, false, false, false⟩
          (update_user_activity sampleStore sampleEnv.now 1) 1 "#words hi") ∧
    ((true : Bool) = false → (false : Bool) = true →
      handle_message sampleGt sampleEnv ⟨true, false, false, false⟩ sampleStore sampleInfo "#words hi" =
        handle_delete_hashtag sampleEnv ⟨true, false, false, false⟩
          (update_user_activity sampleStore sampleEnv.now 1) 1 "#words hi") ∧
    ((true : Bool) = false → (false : Bool) = false → (false : Bool) = true →
      handle_message sampleGt sampleEnv ⟨true, false, false, false⟩ sampleStore sampleInfo "#words hi" =
        handle_import_list sampleEnv ⟨true, false, false, false⟩
          (update_user_activity sampleStore sampleEnv.now 1) 1 "#words hi") ∧
    ((true : Bool) = false → (false : Bool) = false → (false : Bool) = false →
      (false : Bool) = true →
      handle_message sampleGt sampleEnv ⟨true, false, false, false⟩ sampleStore sampleInfo "#words hi" =
        handle_language_selection sampleEnv ⟨true, false, false, false⟩
          (update_user_activity sampleStore sampleEnv.now 1) 1 "#words hi")) :=
  ⟨rfl, C4_flow_consumes sampleGt sampleEnv ⟨true, false, false, false⟩
    sampleStore sampleInfo "#words hi" sampleUser rfl (Or.inl rfl)⟩

/-- Claim C3: with no flow pending, a registered user's message that
carries a `#`-token goes to tagged-note handling before any
menu-label dispatch (the conclusion holds for every label table):
`POST /api/messages` is issued carrying the message's hashtag list —
whose first element, the message's first `#`-token, is the category
the remote write is attributed to, later tags never being used — and
on a 200 response `words_saved` grows by exactly one. -/
theorem C3_tagged_note_priority (gt : GetText) (env : Env) (ctx : Ctx)
    (users : Store) (u : UserInfo) (raw : String) (v : UserData)
    (hreg : get_user users u.id = some v)
    (hc : ctx.awaiting_hashtag_create = false) (hd : ctx.awaiting_hashtag_delete = false)
    (hi : ctx.awaiting_category_import = false) (hl : ctx.awaiting_language = false)
    (htag : (pySplit (pyStrip raw)).filter startsWithHash ≠ []) :
    (handle_message gt env ctx users u raw).calls =
      [RemoteCall.postMessages (pyStrip raw)
        ((pySplit (pyStrip raw)).filter startsWithHash)
        u.id (orStr u.username u.first_name)] ∧
    (∀ h rest, (pySplit (pyStrip raw)).filter startsWithHash = h :: rest →
      smw_category (pyStrip raw) = h) ∧
    (env.messagesPost = .ok 200 () →
      ∃ us, get_user (handle_message gt env ctx users u raw).users u.id = some us ∧
        us.stats.words_saved = v.stats.words_saved + 1 ∧
        (handle_message gt env ctx users u raw).replies =
          [.wordSaved (pyStrip raw)
            (((pySplit (pyStrip raw)).filter startsWithHash).headD "")]) := by
  refine ⟨?_, ?_, ?_⟩
  · unfold handle_message
    cases hr : (send_message_to_website env.messagesPost (pyStrip raw)).1 <;>
      simp [hreg, hc, hd, hi, hl, htag, hr]
  · intro h rest hh
    unfold smw_category
    rw [hh]
  · intro hok
    have hsend : send_message_to_website env.messagesPost (pyStrip raw) = (true, .success) := by
      rw [hok]; rfl
    have hmsg : handle_message gt env ctx users u raw =
        { ctx := ctx
          users := increment_stat (update_user_activity users env.now u.id) u.id "words_saved"
          replies := [.wordSaved (pyStrip raw)
            (((pySplit (pyStrip raw)).filter startsWithHash).headD "")]
          calls := [RemoteCall.postMessages (pyStrip raw)
            ((pySplit (pyStrip raw)).filter startsWithHash)
            u.id (orStr u.username u.first_name)] } := by
      unfold handle_message
      simp [hreg, hc, hd, hi, hl, htag, hsend]
    have hfind1 : storeFind (update_user_activity users env.now u.id) u.id =
        some { v with last_activity := env.now
                      stats := { v.stats with total_messages := v.stats.total_messages + 1 } } :=
      get_user_update_activity users env.now u.id v hreg
    have hfind2 := get_user_increment_self _ u.id "words_saved" .words_saved _ hfind1 rfl
    rw [hmsg]
    exact ⟨_, hfind2, by simp [statsInc], rfl⟩

theorem C3_tagged_note_priority_witness :
    get_user sampleStore 1 = some sampleUser ∧
    (pySplit (pyStrip "#words hello")).filter startsWithHash ≠ [] ∧
    ((handle_message sampleGt sampleEnv idleCtx sampleStore sampleInfo "#words hello").calls =
      [RemoteCall.postMessages (pyStrip "#words hello")
        ((pySplit (pyStrip "#words hello")).filter startsWithHash)
        1 (orStr (some "al") (some "Al"))] ∧
    (∀ h rest, (pySplit (pyStrip "#words hello")).filter startsWithHash = h :: rest →
      smw_category (pyStrip "#words hello") = h) ∧
    (sampleEnv.messagesPost = .ok 200 () →
      ∃ us, get_user (handle_message sampleGt sampleEnv idleCtx sampleStore sampleInfo
          "#words hello").users 1 = some us ∧
        us.stats.words_saved = sampleUser.stats.words_saved + 1 ∧
        (handle_message sampleGt sampleEnv idleCtx sampleStore sampleInfo "#words hello").replies =
          [.wordSaved (pyStrip "#words hello")
            (((pySplit (pyStrip "#words hello")).filter startsWithHash).headD "")])) :=
  ⟨rfl, by decide, C3_tagged_note_priority sampleGt sampleEnv idleCtx sampleStore
    sampleInfo "#words hello" sampleUser rfl rfl rfl rfl rfl (by decide)⟩

theorem help_command_calls (env : Env) (ctx : Ctx) (users : Store) (uid : Int) :
    (help_command env ctx users uid).calls = [] := by
  unfold help_command
  split <;> rfl

theorem profile_command_calls (ctx : Ctx) (users : Store) (uid : Int) :
    (profile_command ctx users uid).calls = [] := by
  unfold profile_command
  split <;> rfl

theorem register_command_no_postHashtags (env : Env) (ctx : Ctx) (users : Store)
    (u : UserInfo) :
    ∀ c ∈ (register_command env ctx users u).calls, c.isPostHashtags = false := by
  unfold register_command
  split
  · simp
  · cases hr : (register_user users env.now u.id u.username u.first_name u.last_name).1 <;>
      simp [hr, RemoteCall.isPostHashtags]

/-- From a fully idle session no single message can reach
`POST /api/hashtags`: a creation always takes a fresh instruction
step first. -/
theorem idle_no_postHashtags (gt : GetText) (env : Env) (ctx : Ctx)
    (users : Store) (u : UserInfo) (raw : String)
    (hc : ctx.awaiting_hashtag_create = false) (hd : ctx.awaiting_hashtag_delete = false)
    (hi : ctx.awaiting_category_import = false) (hl : ctx.awaiting_language = false) :
    ∀ c ∈ (handle_message gt env ctx users u raw).calls, c.isPostHashtags = false := by
  unfold handle_message
  by_cases hr : (get_user users u.id).isNone = true
  · by_cases he : pyLower (pyStrip raw) = pyLower (gt "register" "en")
    · simp only [hr, he, eq_self_iff_true, if_true]
      exact register_command_no_postHashtags env ctx users u
    · simp [hr, he]
  · simp only [hc, hd, hi, hl]
    by_cases htag : ((pySplit (pyStrip raw)).filter startsWithHash).isEmpty = true
    · simp only [hr, htag]
      simp [htag]
      split_ifs with h1 h2 h3 h4 h5 h6 h7 h8
      · rw [help_command_calls]; simp
      · rw [handle_create_idle env ctx _ u.id raw hc]; simp
      · intro c hcc
        have := handle_delete_calls_idle env ctx
          (update_user_activity users env.now u.id) u.id raw hd
        rw [this] at hcc
        simp at hcc
        subst hcc
        rfl
      · intro c hcc
        have := handle_import_calls_idle env ctx
          (update_user_activity users env.now u.id) u.id raw hi
        rw [this] at hcc
        simp at hcc
        subst hcc
        rfl
      · intro c hcc
        rw [handle_language_calls] at hcc
        simp at hcc
      · simp [handle_open_website]
      · rw [profile_command_calls]; simp
      · exact fun c hcc => register_command_no_postHashtags env ctx _ u c hcc
      · simp
    · cases hsw : (send_message_to_website env.messagesPost (pyStrip raw)).1 <;>
        simp [hr, htag, hsw, RemoteCall.isPostHashtags]

/-- Claim C8: in the create-category flow, a message whose first
token lacks the `#` marker aborts the flow: the pending flag is
cleared, an error reply is sent, no `POST /api/hashtags` is issued,
`hashtags_created` is unchanged — and from the resulting all-idle
session no next message can issue a `POST /api/hashtags` either, so
a creation must be re-initiated, not resumed. -/
theorem C8_create_abort (gt : GetText) (env : Env) (ctx : Ctx)
    (users : Store) (u : UserInfo) (raw : String) (v : UserData)
    (hreg : get_user users u.id = some v)
    (hc : ctx.awaiting_hashtag_create = true) (hd : ctx.awaiting_hashtag_delete = false)
    (hi : ctx.awaiting_category_import = false) (hl : ctx.awaiting_language = false)
    (hbad : startsWithHash (splitFirstSpace (pyStrip raw)).1 = false) :
    (handle_message gt env ctx users u raw).ctx = ⟨false, false, false, false⟩ ∧
    (handle_message gt env ctx users u raw).replies = [.createWrongStart] ∧
    (handle_message gt env ctx users u raw).calls = [] ∧
    (∃ us, get_user (handle_message gt env ctx users u raw).users u.id = some us ∧
      us.stats.hashtags_created = v.stats.hashtags_created) ∧
    (∀ (gt2 : GetText) (env2 : Env) (raw2 : String),
      ∀ c ∈ (handle_message gt2 env2 (handle_message gt env ctx users u raw).ctx
        (handle_message gt env ctx users u raw).users u raw2).calls,
        c.isPostHashtags = false) := by
  have hmsg : handle_message gt env ctx users u raw =
      { ctx := { ctx with awaiting_hashtag_create := false }
        users := update_user_activity users env.now u.id
        replies := [.createWrongStart], calls := [] } := by
    unfold handle_message
    simp only [hreg, hc]
    simp [hreg]
    unfold handle_create_hashtag
    simp [hc, hbad]
  have hctx : ({ ctx with awaiting_hashtag_create := false } : Ctx) =
      ⟨false, false, false, false⟩ := by
    cases ctx
    simp_all
  rw [hmsg]
  refine ⟨hctx, rfl, rfl, ?_, ?_⟩
  · exact ⟨_, get_user_update_activity users env.now u.id v hreg, rfl⟩
  · intro gt2 env2 raw2
    rw [hctx]
    exact idle_no_postHashtags gt2 env2 ⟨false, false, false, false⟩
      (update_user_activity users env.now u.id) u raw2 rfl rfl rfl rfl

theorem C8_create_abort_witness :
    get_user sampleStore 1 = some sampleUser ∧
    startsWithHash (splitFirstSpace (pyStrip "words no marker")).1 = false ∧
    ((handle_message sampleGt sampleEnv ⟨true, false, false, false⟩
        sampleStore sampleInfo "words no marker").ctx = ⟨false, false, false, false⟩ ∧
    (handle_message sampleGt sampleEnv ⟨true, false, false, false⟩
        sampleStore sampleInfo "words no marker").replies = [.createWrongStart] ∧
    (handle_message sampleGt sampleEnv ⟨true, false, false, false⟩
        sampleStore sampleInfo "words no marker").calls = [] ∧
    (∃ us, get_user (handle_message sampleGt sampleEnv ⟨true, false, false, false⟩
        sampleStore sampleInfo "words no marker").users 1 = some us ∧
      us.stats.hashtags_created = sampleUser.stats.hashtags_created) ∧
    (∀ (gt2 : GetText) (env2 : Env) (raw2 : String),
      ∀ c ∈ (handle_message gt2 env2
        (handle_message sampleGt sampleEnv ⟨true, false, false, false⟩
          sampleStore sampleInfo "words no marker").ctx
        (handle_message sampleGt sampleEnv ⟨true, false, false, false⟩
          sampleStore sampleInfo "words no marker").users sampleInfo raw2).calls,
        c.isPostHashtags = false)) :=
  ⟨rfl, by decide, C8_create_abort sampleGt sampleEnv ⟨true, false, false, false⟩
    sampleStore sampleInfo "words no marker" sampleUser rfl rfl rfl rfl rfl (by decide)⟩

/-- Claim C9: `get_words_by_category` fetches the full item listing
and keeps exactly the items whose category field equals the request;
when that filter is empty the import flow replies "no words found",
the only call is the listing fetch (no render), and `pdfs_generated`
is unchanged. -/
theorem C9_import_empty (gt : GetText) (env : Env) (ctx : Ctx)
    (users : Store) (u : UserInfo) (raw : String) (v : UserData)
    (msgs : List RemoteMsg)
    (hreg : get_user users u.id = some v)
    (hc : ctx.awaiting_hashtag_create = false) (hd : ctx.awaiting_hashtag_delete = false)
    (hi : ctx.awaiting_category_import = true)
    (hhash : startsWithHash (pyStrip raw) = true)
    (hresp : env.messagesGet = .ok 200 msgs)
    (hempty : msgs.filter (fun m => m.category = some (pyStrip raw)) = []) :
    (∀ category, ∃ ws, get_words_by_category env.messagesGet category = .ok ws ∧
      ∀ m, m ∈ ws ↔ (m ∈ msgs ∧ m.category = some category)) ∧
    (handle_message gt env ctx users u raw).replies = [.noWordsFound (pyStrip raw)] ∧
    (handle_message gt env ctx users u raw).calls = [.getMessages] ∧
    (∃ us, get_user (handle_message gt env ctx users u raw).users u.id = some us ∧
      us.stats.pdfs_generated = v.stats.pdfs_generated) := by
  have hwords : get_words_by_category env.messagesGet (pyStrip raw) = .ok [] := by
    rw [hresp]
    simp [get_words_by_category, hempty]
  have hmsg : handle_message gt env ctx users u raw =
      { ctx := { ctx with awaiting_category_import := false }
        users := update_user_activity users env.now u.id
        replies := [.noWordsFound (pyStrip raw)], calls := [.getMessages] } := by
    unfold handle_message
    simp [hreg, hc, hd, hi]
    unfold handle_import_list
    simp [hi, hhash, hwords, hc, hd]
  refine ⟨?_, by rw [hmsg], by rw [hmsg], ?_⟩
  · intro category
    refine ⟨msgs.filter (fun m => m.category = some category), by rw [hresp]; rfl, ?_⟩
    intro m
    simp [List.mem_filter]
  · rw [hmsg]
    exact ⟨_, get_user_update_activity users env.now u.id v hreg, rfl⟩

theorem C9_import_empty_witness :
    get_user sampleStore 1 = some sampleUser ∧
    startsWithHash (pyStrip "#none") = true ∧
    ({ sampleEnv with messagesGet := .ok 200 [⟨"x", none, some "#words"⟩] } : Env).messagesGet =
      .ok 200 [⟨"x", none, some "#words"⟩] ∧
    List.filter (fun m => m.category = some (pyStrip "#none"))
      [(⟨"x", none, some "#words"⟩ : RemoteMsg)] = [] ∧
    ((∀ category, ∃ ws, get_words_by_category
        ({ sampleEnv with messagesGet := .ok 200 [⟨"x", none, some "#words"⟩] } : Env).messagesGet
        category = .ok ws ∧
      ∀ m, m ∈ ws ↔ (m ∈ [(⟨"x", none, some "#words"⟩ : RemoteMsg)] ∧ m.category = some category)) ∧
    (handle_message sampleGt { sampleEnv with messagesGet := .ok 200 [⟨"x", none, some "#words"⟩] }
        ⟨false, false, true, false⟩ sampleStore sampleInfo "#none").replies =
      [.noWordsFound (pyStrip "#none")] ∧
    (handle_message sampleGt { sampleEnv with messagesGet := .ok 200 [⟨"x", none, some "#words"⟩] }
        ⟨false, false, true, false⟩ sampleStore sampleInfo "#none").calls = [.getMessages] ∧
    (∃ us, get_user (handle_message sampleGt
        { sampleEnv with messagesGet := .ok 200 [⟨"x", none, some "#words"⟩] }
        ⟨false, false, true, false⟩ sampleStore sampleInfo "#none").users 1 = some us ∧
      us.stats.pdfs_generated = sampleUser.stats.pdfs_generated)) :=
  ⟨rfl, by decide, rfl, by decide,
    C9_import_empty sampleGt { sampleEnv with messagesGet := .ok 200 [⟨"x", none, some "#words"⟩] }
      ⟨false, false, true, false⟩ sampleStore sampleInfo "#none" sampleUser
      [⟨"x", none, some "#words"⟩] rfl rfl rfl rfl (by decide) rfl (by decide)⟩

/-- Claim C10: in the import flow with a non-empty category and a
successful render, `pdfs_generated` is incremented as soon as the
render yields a path — the call sequence places the render strictly
before the document send — so a failing send still leaves the
counter incremented while the user gets only an error reply. -/
theorem C10_pdf_count_before_send (gt : GetText) (env : Env) (ctx : Ctx)
    (users : Store) (u : UserInfo) (raw : String) (v : UserData)
    (msgs : List RemoteMsg) (p : String)
    (hreg : get_user users u.id = some v)
    (hc : ctx.awaiting_hashtag_create = false) (hd : ctx.awaiting_hashtag_delete = false)
    (hi : ctx.awaiting_category_import = true)
    (hhash : startsWithHash (pyStrip raw) = true)
    (hresp : env.messagesGet = .ok 200 msgs)
    (hne : msgs.filter (fun m => m.category = some (pyStrip raw)) ≠ [])
    (hpdf : env.pdfPath = some p) :
    (∃ us, get_user (handle_message gt env ctx users u raw).users u.id = some us ∧
      us.stats.pdfs_generated = v.stats.pdfs_generated + 1) ∧
    (handle_message gt env ctx users u raw).calls =
      [.getMessages,
       .generatePdf (msgs.filter (fun m => m.category = some (pyStrip raw))) (pyStrip raw),
       .sendDocument (pyStrip raw ++ "_word_list.pdf")] ∧
    (env.sendDocOk = false →
      (handle_message gt env ctx users u raw).replies = [.errorSendingPdf]) := by
  have hwords : get_words_by_category env.messagesGet (pyStrip raw) =
      .ok (msgs.filter fun m => m.category = some (pyStrip raw)) := by
    rw [hresp]
    simp [get_words_by_category]
  have hroute : handle_message gt env ctx users u raw =
      handle_import_list env ctx (update_user_activity users env.now u.id) u.id raw := by
    unfold handle_message
    simp [hreg, hc, hd, hi]
  have husers : ∃ us,
      get_user (increment_stat (update_user_activity users env.now u.id) u.id
        "pdfs_generated") u.id = some us ∧
      us.stats.pdfs_generated = v.stats.pdfs_generated + 1 := by
    have hfind1 : storeFind (update_user_activity users env.now u.id) u.id =
        some { v with last_activity := env.now
                      stats := { v.stats with total_messages := v.stats.total_messages + 1 } } :=
      get_user_update_activity users env.now u.id v hreg
    exact ⟨_, get_user_increment_self _ u.id "pdfs_generated" .pdfs_generated _ hfind1 rfl,
      by simp [statsInc]⟩
  rw [hroute]
  unfold handle_import_list
  cases hs : env.sendDocOk <;>
    simp [hi, hhash, hwords, hne, hpdf, hs] <;>
    exact husers

theorem C10_pdf_count_before_send_witness :
    get_user sampleStore 1 = some sampleUser ∧
    startsWithHash (pyStrip "#words") = true ∧
    sampleEnv.messagesGet = .ok 200 [⟨"hello #words", some "privet", some "#words"⟩] ∧
    List.filter (fun m => m.category = some (pyStrip "#words"))
      [(⟨"hello #words", some "privet", some "#words"⟩ : RemoteMsg)] ≠ [] ∧
    sampleEnv.pdfPath = some "x.pdf" ∧
    ((∃ us, get_user (handle_message sampleGt sampleEnv ⟨false, false, true, false⟩
        sampleStore sampleInfo "#words").users 1 = some us ∧
      us.stats.pdfs_generated = sampleUser.stats.pdfs_generated + 1) ∧
    (handle_message sampleGt sampleEnv ⟨false, false, true, false⟩
        sampleStore sampleInfo "#words").calls =
      [.getMessages,
       .generatePdf (List.filter (fun m => m.category = some (pyStrip "#words"))
         [(⟨"hello #words", some "privet", some "#words"⟩ : RemoteMsg)]) (pyStrip "#words"),
       .sendDocument (pyStrip "#words" ++ "_word_list.pdf")] ∧
    (sampleEnv.sendDocOk = false →
      (handle_message sampleGt sampleEnv ⟨false, false, true, false⟩
        sampleStore sampleInfo "#words").replies = [.errorSendingPdf])) :=
  ⟨rfl, by decide, rfl, by decide, rfl,
    C10_pdf_count_before_send sampleGt sampleEnv ⟨false, false, true, false⟩
      sampleStore sampleInfo "#words" sampleUser
      [⟨"hello #words", some "privet", some "#words"⟩] "x.pdf"
      rfl rfl rfl rfl (by decide) rfl (by decide) rfl⟩

/-- Claim C1, counterexample: a registered user in language-choice
mode sends unrecognized text, yet afterwards the pending flag is
false — the handler clears `awaiting_language` before it inspects
the choice, so the session does NOT stay in AwaitingLanguageChoice
as the claim states. -/
theorem C1_counterexample :
    get_user sampleStore 1 = some sampleUser ∧
    enChoices (pyStrip (pyLower (pyStrip "xyz"))) = false ∧
    ruChoices (pyStrip (pyLower (pyStrip "xyz"))) = false ∧
    uzChoices (pyStrip (pyLower (pyStrip "xyz"))) = false ∧
    (handle_message sampleGt sampleEnv ⟨false, false, false, true⟩
      sampleStore sampleInfo "xyz").ctx.awaiting_language = false := by
  decide

/-- Claim C1 as amended: on unrecognized input in language-choice
mode the trilingual invalid-choice reply is sent and the stored
language is unchanged, but the pending flag is CLEARED (the session
returns to idle rather than staying in AwaitingLanguageChoice). -/
theorem C1_language_invalid_clears_flag (gt : GetText) (env : Env) (ctx : Ctx)
    (users : Store) (u : UserInfo) (raw : String) (v : UserData)
    (hreg : get_user users u.id = some v)
    (hc : ctx.awaiting_hashtag_create = false) (hd : ctx.awaiting_hashtag_delete = false)
    (hi : ctx.awaiting_category_import = false) (hl : ctx.awaiting_language = true)
    (h1 : enChoices (pyStrip (pyLower (pyStrip raw))) = false)
    (h2 : ruChoices (pyStrip (pyLower (pyStrip raw))) = false)
    (h3 : uzChoices (pyStrip (pyLower (pyStrip raw))) = false) :
    (handle_message gt env ctx users u raw).ctx = ⟨false, false, false, false⟩ ∧
    (handle_message gt env ctx users u raw).replies = [.invalidLanguageChoice] ∧
    (∃ us, get_user (handle_message gt env ctx users u raw).users u.id = some us ∧
      us.language = v.language) := by
  have hroute : handle_message gt env ctx users u raw =
      handle_language_selection env ctx (update_user_activity users env.now u.id) u.id raw := by
    unfold handle_message
    simp [hreg, hc, hd, hi, hl]
  have hfind1 : storeFind (update_user_activity users env.now u.id) u.id =
      some { v with last_activity := env.now
                    stats := { v.stats with total_messages := v.stats.total_messages + 1 } } :=
    get_user_update_activity users env.now u.id v hreg
  have hfind2 := get_user_update_activity (update_user_activity users env.now u.id)
    env.now u.id _ hfind1
  rw [hroute]
  unfold handle_language_selection
  simp only [get_user, hfind1, Option.isNone_some, Bool.false_eq_true, if_false, hl, if_true,
    h1, h2, h3, ite_false, Bool.false_eq_true]
  refine ⟨?_, ?_, ⟨_, hfind2, rfl⟩⟩
  · cases ctx
    simp_all
  · trivial

theorem C1_language_invalid_clears_flag_witness :
    get_user sampleStore 1 = some sampleUser ∧
    enChoices (pyStrip (pyLower (pyStrip "nope"))) = false ∧
    ruChoices (pyStrip (pyLower (pyStrip "nope"))) = false ∧
    uzChoices (pyStrip (pyLower (pyStrip "nope"))) = false ∧
    ((handle_message sampleGt sampleEnv ⟨false, false, false, true⟩
        sampleStore sampleInfo "nope").ctx = ⟨false, false, false, false⟩ ∧
    (handle_message sampleGt sampleEnv ⟨false, false, false, true⟩
        sampleStore sampleInfo "nope").replies = [.invalidLanguageChoice] ∧
    (∃ us, get_user (handle_message sampleGt sampleEnv ⟨false, false, false, true⟩
        sampleStore sampleInfo "nope").users 1 = some us ∧
      us.language = sampleUser.language)) :=
  ⟨rfl, by decide, by decide, by decide,
    C1_language_invalid_clears_flag sampleGt sampleEnv ⟨false, false, false, true⟩
      sampleStore sampleInfo "nope" sampleUser rfl rfl rfl rfl rfl
      (by decide) (by decide) (by decide)⟩
